import Mathlib

/- Shallow embedding of packages/binding-mock/lib/binding-mock.ts (MockBinding).

   Modelling conventions:
   - Node Buffers are lists of byte values (List Nat); every Buffer operation in
     the source is a copy / concat / slice, so no byte arithmetic is needed.
   - The module-level mutable table `ports` and counter `serialNumber` live in a
     `World`.  JavaScript object references are modelled by a heap: `World.heap`
     holds every MockPort record ever created, `World.ports` maps a path to a
     heap index, and a binding instance holds a heap index in `port`.  The heap
     only grows, so heap indices held by instances stay valid; `reset` clears
     only the path table, exactly as `ports = {}` drops the table while live
     references keep their record alive.
   - `port.info` is flattened into the record; `info.serialNumber` is stored as
     the underlying number (the source stores its decimal string, an injective
     image, and never computes with it).
   - Each async method is one atomic step from its initial
     `await resolveNextTick()` suspension on; `write` is split at its internal
     suspension: `writeStart` is the synchronous part (argument and state
     checks, in-flight marking) and `writeFinish` is the deferred body, which
     receives the value the caller buffer has when the body actually runs.
   - `process.nextTick` callbacks that emit data (ready-data echo from open,
     write echo) are reified as `MockTask` values returned by the operation
     that schedules them; `runTask` / `runTasks` execute them in FIFO order,
     which is the nextTick ordering.
   - A thrown exception is an `Except.error` in the result, but — crucially —
     mutations of `this` made before the throw are kept: every operation
     returns the (possibly partially mutated) world and binding alongside the
     outcome. -/

/-- Byte sequences (Node Buffer contents). -/
abbrev Bytes := List Nat

/-- The errors thrown by binding-mock.ts, one constructor per message. -/
inductive MockError where
  /-- TypeError: bad path, options not an object, or write argument not a Buffer. -/
  | invalidArgument
  /-- Port does not exist - please call MockBinding.createPort first. -/
  | notFound
  /-- Port is locked cannot open. -/
  | lockConflict
  /-- Open: binding is already open (the guard at line 129). -/
  | alreadyOpen
  /-- already closed. -/
  | alreadyClosed
  /-- Port is not open (also the emitData guard message). -/
  | notOpen
  /-- Read canceled. -/
  | readCanceled
  /-- Write canceled. -/
  | writeCanceled
  /-- Overlapping writes are not supported and should be queued by the serialport object. -/
  | overlappingWrite
  /-- port is closed: delivered to a pending read continuation by close. -/
  | portClosed
  deriving DecidableEq, Repr

/-- The options object passed to open; the source copies it with Object.assign
    and only ever reads `lock` (open) and `baudRate` (update/getBaudRate). -/
structure OpenOpt where
  lock : Bool := false
  baudRate : Nat := 0
  deriving DecidableEq, Repr

/-- interface MockPort (binding-mock.ts lines 8-15), with `info` flattened to
    the one field the logic reads. -/
structure MockPort where
  serialNumber : Nat
  data : Bytes
  echo : Bool
  record : Bool
  readyData : Bytes
  openOpt : Option OpenOpt
  deriving DecidableEq, Repr

/-- The module-level mutable state: `ports` (path to heap index), the heap of
    all records ever allocated, and the `serialNumber` counter (lines 21-22). -/
structure World where
  heap : List MockPort
  ports : List (String × Nat)
  serialNumber : Nat
  deriving DecidableEq, Repr

/-- The per-instance fields of class MockBinding (lines 32-38).  `pendingRead`
    records whether a read continuation thunk is registered; `writeOperation`
    records whether a write is in flight (the promise itself is opaque). -/
structure MockBinding where
  lastWrite : Option Bytes
  pendingRead : Bool
  port : Option Nat
  recording : Bytes
  serialNumber : Option Nat
  writeOperation : Bool
  isOpen : Bool
  deriving DecidableEq, Repr

/-- The constructor (lines 40-49). -/
def MockBinding.init : MockBinding where
  lastWrite := none
  pendingRead := false
  port := none
  recording := []
  serialNumber := none
  writeOperation := false
  isOpen := false

/-- Placeholder record for out-of-range heap reads; reachable states only ever
    dereference valid indices (the heap never shrinks). -/
def defaultPort : MockPort where
  serialNumber := 0
  data := []
  echo := false
  record := false
  readyData := []
  openOpt := none

/-- Dereference a heap index (a JavaScript object reference). -/
def World.getPort (w : World) (r : Nat) : MockPort :=
  w.heap.getD r defaultPort

/-- Mutate the record behind a heap index in place. -/
def World.updatePort (w : World) (r : Nat) (f : MockPort → MockPort) : World :=
  { w with heap := w.heap.set r (f (w.getPort r)) }

/-- Key update in the ports table: `ports[path] = v` replaces any previous
    binding of the same path. -/
def setAssoc (k : String) (v : Nat) (l : List (String × Nat)) : List (String × Nat) :=
  (k, v) :: l.filter (fun p => p.1 ≠ k)

/-- Deferred `process.nextTick` work that emits data, in scheduling order:
    the ready-data echo scheduled by open (which rereads `readyData` through
    the captured record reference at run time) and the echo of a completed
    write (which captured the copied bytes). -/
inductive MockTask where
  | emitReady (r : Nat)
  | emitEcho (data : Bytes)
  deriving DecidableEq, Repr

/-- Result of an operation: the mutated world and binding, the nextTick
    emissions it scheduled, and the outcome (resolve or throw). -/
structure OpResult where
  world : World
  binding : MockBinding
  tasks : List MockTask
  out : Except MockError Unit
  deriving Repr

/-- What a read resolves to: a byte count, or suspension as the registered
    pendingRead continuation. -/
inductive ReadOut where
  | bytes (n : Nat)
  | suspended
  deriving DecidableEq, Repr

/-- Result of read: mutated world and binding, the caller buffer contents
    after the copy, and the outcome. -/
structure ReadResult where
  world : World
  binding : MockBinding
  buffer : Bytes
  out : Except MockError ReadOut
  deriving Repr

/-- Result of close: `pendingReject` is the error synchronously delivered to
    the registered pendingRead continuation, if one was registered. -/
structure CloseResult where
  world : World
  binding : MockBinding
  pendingReject : Option MockError
  out : Except MockError Unit
  deriving Repr

/-- static reset (lines 52-54): `ports = \x7b\x7d`.  Only the table is cleared —
    records stay on the heap and the serial counter is untouched. -/
def reset (w : World) : World :=
  { w with ports := [] }

/-- The defaulted options of static createPort (lines 59-64). -/
structure CreateOptions where
  echo : Bool := false
  record : Bool := false
  readyData : Bytes := [82, 69, 65, 68, 89]
  deriving DecidableEq, Repr

/-- static createPort (lines 57-83): bump the serial counter, allocate a fresh
    record and bind the path to it (replacing any previous binding). -/
def createPort (w : World) (path : String) (options : CreateOptions) : World :=
  let sn := w.serialNumber + 1
  let newPort : MockPort :=
    { serialNumber := sn
      data := []
      echo := options.echo
      record := options.record
      readyData := options.readyData
      openOpt := none }
  { heap := w.heap ++ [newPort]
    ports := setAssoc path w.heap.length w.ports
    serialNumber := sn }

/-- emitData (lines 93-107): guard, append to the record the instance holds,
    and if a pendingRead is registered, schedule its wake and clear the field.
    The woken continuation reissues `read`; with no read pending (the case the
    theorems use) no such continuation exists. -/
def emitData (w : World) (b : MockBinding) (data : Bytes) : OpResult :=
  match b.isOpen, b.port with
  | true, some r =>
    let w2 := w.updatePort r (fun p => { p with data := p.data ++ data })
    if b.pendingRead then
      ⟨w2, { b with pendingRead := false }, [], .ok ()⟩
    else
      ⟨w2, b, [], .ok ()⟩
  | _, _ => ⟨w, b, [], .error .notOpen⟩

/-- The lock test of open line 125: `port.openOpt && port.openOpt.lock`. -/
def lockHeld (o : Option OpenOpt) : Bool :=
  match o with
  | some opt => opt.lock
  | none => false

/-- open (lines 109-145), faithfully including:
    - `this.port = ports[path]` is assigned before the existence check, so a
      failed open can leave `port` set (or clear it on a missing path);
    - the guard at line 129 tests `!this.isOpen || !this.port` and throws
      "Open: binding is already open" — it throws precisely when the binding
      is NOT yet open, so the success path needs `isOpen` already true;
    - on success the found record gets a copy of the options as `openOpt`,
      `isOpen` is set, and if the record has echo enabled one ready-data
      emission is scheduled, guarded at run time by `isOpen`. -/
def «open» (w : World) (b : MockBinding) (path : String) (options : Option OpenOpt) : OpResult :=
  if path = "" then ⟨w, b, [], .error .invalidArgument⟩
  else
    match options with
    | none => ⟨w, b, [], .error .invalidArgument⟩
    | some opts =>
      let b1 : MockBinding := { b with port := w.ports.lookup path }
      match w.ports.lookup path with
      | none => ⟨w, b1, [], .error .notFound⟩
      | some r =>
        let p := w.getPort r
        let b2 : MockBinding := { b1 with serialNumber := some p.serialNumber }
        if lockHeld p.openOpt then
          ⟨w, b2, [], .error .lockConflict⟩
        else if b2.isOpen = false ∨ b2.port = none then
          ⟨w, b2, [], .error .alreadyOpen⟩
        else
          let w2 := w.updatePort r (fun q => { q with openOpt := some opts })
          let b3 : MockBinding := { b2 with isOpen := true }
          ⟨w2, b3, if p.echo then [MockTask.emitReady r] else [], .ok ()⟩

/-- close (lines 147-163): guard, clear the record through the held reference,
    detach the instance, and synchronously invoke any registered pendingRead
    continuation with the port-is-closed error (the field itself is not
    cleared by close in the source). -/
def close (w : World) (b : MockBinding) : CloseResult :=
  match b.isOpen, b.port with
  | true, some r =>
    let w2 := w.updatePort r (fun p => { p with openOpt := none, data := [] })
    let b2 : MockBinding := { b with port := none, serialNumber := none, isOpen := false }
    if b.pendingRead then ⟨w2, b2, some .portClosed, .ok ()⟩
    else ⟨w2, b2, none, .ok ()⟩
  | _, _ => ⟨w, b, none, .error .alreadyClosed⟩

/-- Buffer.prototype.copy src.copy(target, targetStart): writes src into
    target at targetStart, truncated to the capacity of target, and returns
    the number of bytes written. -/
def bufCopy (src target : Bytes) (targetStart : Nat) : Bytes × Nat :=
  let n := min src.length (target.length - targetStart)
  (target.take targetStart ++ src.take n ++ target.drop (targetStart + n), n)

/-- read (lines 165-186): guard after the latency tick; empty receive buffer
    registers a pendingRead and suspends; otherwise take at most `len` bytes
    from the front, copy them into the caller buffer (bounded by its
    capacity), and drop `len` — note: `len`, not the copied count — from the
    record. -/
def MockBinding.read (w : World) (b : MockBinding) (buffer : Bytes) (offset len : Nat) : ReadResult :=
  match b.isOpen, b.port with
  | true, some r =>
    let p := w.getPort r
    if p.data.length ≤ 0 then
      ⟨w, { b with pendingRead := true }, buffer, .ok .suspended⟩
    else
      let data := p.data.take len
      let (buffer2, readLength) := bufCopy data buffer offset
      let w2 := w.updatePort r (fun q => { q with data := q.data.drop len })
      ⟨w2, b, buffer2, .ok (.bytes readLength)⟩
  | _, _ => ⟨w, b, buffer, .error .readCanceled⟩

/-- The write argument: a Buffer with its bytes, or some non-Buffer value. -/
inductive WriteArg where
  | buf (data : Bytes)
  | notBuffer
  deriving DecidableEq, Repr

/-- The synchronous part of write (lines 188-201 plus starting the async
    body): Buffer check BEFORE the open check, then the overlap check, then
    mark a write in flight.  No state is touched on any failure. -/
def writeStart (w : World) (b : MockBinding) (arg : WriteArg) : OpResult :=
  match arg with
  | .notBuffer => ⟨w, b, [], .error .invalidArgument⟩
  | .buf _ =>
    if b.isOpen = false then ⟨w, b, [], .error .notOpen⟩
    else if b.writeOperation then ⟨w, b, [], .error .overlappingWrite⟩
    else ⟨w, { b with writeOperation := true }, [], .ok ()⟩

/-- The deferred body of write (lines 202-220), which runs after
    `await resolveNextTick()`: `bufNow` is the value the caller buffer holds
    at that later time — `Buffer.from(buffer)` copies it only now.  Stores the
    copy as lastWrite, appends it to the recording if the record records,
    schedules its echo if the record echoes, and clears the in-flight marker
    (on the Write-canceled throw the marker is NOT cleared, as in the
    source). -/
def writeFinish (w : World) (b : MockBinding) (bufNow : Bytes) : OpResult :=
  match b.isOpen, b.port with
  | true, some r =>
    let data := bufNow
    let b2 : MockBinding := { b with lastWrite := some data }
    let p := w.getPort r
    let b3 : MockBinding :=
      if p.record then { b2 with recording := b2.recording ++ data } else b2
    ⟨w, { b3 with writeOperation := false },
      if p.echo then [MockTask.emitEcho data] else [], .ok ()⟩
  | _, _ => ⟨w, b, [], .error .writeCanceled⟩

/-- flush (lines 271-277): guard, then discard the receive buffer. -/
def flush (w : World) (b : MockBinding) : OpResult :=
  match b.isOpen, b.port with
  | true, some r =>
    ⟨w.updatePort r (fun p => { p with data := [] }), b, [], .ok ()⟩
  | _, _ => ⟨w, b, [], .error .notOpen⟩

/-- drain (lines 279-285): guard, await the in-flight write, return.  The
    await is modelled by sequencing writeFinish before drain; drain itself
    changes no state. -/
def drain (w : World) (b : MockBinding) : OpResult :=
  match b.isOpen, b.port with
  | true, some _ => ⟨w, b, [], .ok ()⟩
  | _, _ => ⟨w, b, [], .error .notOpen⟩

/-- Run one scheduled nextTick emission: both kinds are guarded by
    `this.isOpen` at run time and then behave as emitData; the ready-data
    task rereads `readyData` through its captured record reference. -/
def runTask (w : World) (b : MockBinding) : MockTask → World × MockBinding
  | .emitReady r =>
    if b.isOpen then
      let res := emitData w b ((w.getPort r).readyData)
      (res.world, res.binding)
    else (w, b)
  | .emitEcho data =>
    if b.isOpen then
      let res := emitData w b data
      (res.world, res.binding)
    else (w, b)

/-- Run scheduled emissions in FIFO (nextTick) order. -/
def runTasks (w : World) (b : MockBinding) : List MockTask → World × MockBinding
  | [] => (w, b)
  | t :: ts =>
    let s := runTask w b t
    runTasks s.1 s.2 ts

/-- Registry-level operations, for stating properties of the serial counter
    across arbitrary createPort / reset histories. -/
inductive RegOp where
  | create (path : String) (options : CreateOptions)
  | resetR
  deriving Repr

/-- Apply one registry operation. -/
def applyRegOp (w : World) : RegOp → World
  | .create path options => createPort w path options
  | .resetR => reset w

/-- Apply a history of registry operations in order. -/
def applyRegOps (w : World) (l : List RegOp) : World :=
  l.foldl applyRegOp w

/-- The serial numbers assigned by the createPort calls of a history, in call
    order. -/
def serialsAssigned (w : World) : List RegOp → List Nat
  | [] => []
  | op :: l =>
    (match op with
      | .create _ _ => [w.serialNumber + 1]
      | .resetR => []) ++ serialsAssigned (applyRegOp w op) l

/-- The two instance fields the spec couples: the held device reference and
    the open flag agree when one is set exactly when the other is. -/
def portOpenAgree (b : MockBinding) : Prop :=
  b.port.isSome = b.isOpen

instance (b : MockBinding) : Decidable (portOpenAgree b) := by
  unfold portOpenAgree; infer_instance

/-- The empty module state: no ports created, counter at 0. -/
def emptyWorld : World := { heap := [], ports := [], serialNumber := 0 }

/-- A one-device world: path "/a" maps to a record with the given receive
    buffer, no echo, no recording, already holding open options (as after a
    successful open). -/
def wData (d : Bytes) : World :=
  { heap := [{ serialNumber := 1, data := d, echo := false, record := false,
               readyData := [], openOpt := some {} }],
    ports := [("/a", 0)], serialNumber := 1 }

/-- An instance holding the record at heap index 0 open. -/
def bOpen0 : MockBinding :=
  { lastWrite := none, pendingRead := false, port := some 0, recording := [],
    serialNumber := some 1, writeOperation := false, isOpen := true }

/-- Like bOpen0, but with a registered pendingRead continuation. -/
def bPending0 : MockBinding := { bOpen0 with pendingRead := true }

/-- A world whose single device at "/e" has echo enabled and ready data OK. -/
def wEcho : World :=
  { heap := [{ serialNumber := 1, data := [], echo := true, record := false,
               readyData := [79, 75], openOpt := none }],
    ports := [("/e", 0)], serialNumber := 1 }

/-- A world whose single device at "/a" is lock-held. -/
def wLocked : World :=
  { heap := [{ serialNumber := 1, data := [], echo := false, record := false,
               readyData := [], openOpt := some { lock := true, baudRate := 0 } }],
    ports := [("/a", 0)], serialNumber := 1 }

theorem getD_set_self {α : Type} (l : List α) (i : Nat) (a d : α) (h : i < l.length) :
    (l.set i a).getD i d = a := by
  induction l generalizing i with
  | nil => simp at h
  | cons x xs ih =>
    cases i with
    | zero => simp
    | succ n =>
      simp only [List.set_cons_succ, List.getD_cons_succ]
      exact ih n (by simpa using h)

theorem getPort_updatePort_self (w : World) (r : Nat) (f : MockPort → MockPort)
    (h : r < w.heap.length) :
    (w.updatePort r f).getPort r = f (w.getPort r) := by
  simpa [World.updatePort, World.getPort] using
    getD_set_self w.heap r (f (w.getPort r)) defaultPort h

theorem heap_length_updatePort (w : World) (r : Nat) (f : MockPort → MockPort) :
    (w.updatePort r f).heap.length = w.heap.length := by
  simp [World.updatePort]

theorem getPort_reset (w : World) (r : Nat) : (reset w).getPort r = w.getPort r := rfl

theorem updatePort_reset (w : World) (r : Nat) (f : MockPort → MockPort) :
    (reset w).updatePort r f = reset (w.updatePort r f) := rfl

/-- C1: the claim is right and the code is wrong.  With a freshly created
    device "/dev/mock" (registered, not lock-held) and a fresh closed binding
    instance, open with well-formed options throws "Open: binding is already
    open" instead of succeeding: the guard at line 129 tests `!this.isOpen`,
    so it fires exactly when the instance is NOT already open, contradicting
    its own error message.  The instance is left not open, with a dangling
    device reference and no options stored. -/
theorem open_fresh_instance_throws :
    (createPort emptyWorld "/dev/mock" {}).ports.lookup "/dev/mock" = some 0 ∧
    ((createPort emptyWorld "/dev/mock" {}).getPort 0).openOpt = none ∧
    MockBinding.init.isOpen = false ∧
    («open» (createPort emptyWorld "/dev/mock" {}) MockBinding.init "/dev/mock"
        (some { lock := false, baudRate := 9600 })).out = .error .alreadyOpen ∧
    («open» (createPort emptyWorld "/dev/mock" {}) MockBinding.init "/dev/mock"
        (some { lock := false, baudRate := 9600 })).binding.isOpen = false ∧
    ((«open» (createPort emptyWorld "/dev/mock" {}) MockBinding.init "/dev/mock"
        (some { lock := false, baudRate := 9600 })).world.getPort 0).openOpt = none :=
  ⟨rfl, rfl, rfl, rfl, rfl, rfl⟩

/-- C10: write validates its argument before checking open state: on a
    non-Buffer argument it throws the TypeError (InvalidArgument) even when
    the instance is not open, and changes no state. -/
theorem write_checks_argument_first (w : World) (b : MockBinding)
    (h : b.isOpen = false) :
    writeStart w b .notBuffer = ⟨w, b, [], .error .invalidArgument⟩ := by
  simp [writeStart]

theorem write_checks_argument_first_witness :
    writeStart emptyWorld MockBinding.init .notBuffer
      = ⟨emptyWorld, MockBinding.init, [], .error .invalidArgument⟩ :=
  write_checks_argument_first emptyWorld MockBinding.init rfl

/-- C3: close on an open instance with a registered pendingRead continuation
    synchronously delivers the port-is-closed failure to that continuation
    and itself resolves; the pending read is not left unresolved. -/
theorem close_resolves_pending_read (w : World) (b : MockBinding) (r : Nat)
    (ho : b.isOpen = true) (hp : b.port = some r) (hpr : b.pendingRead = true) :
    (close w b).pendingReject = some .portClosed ∧ (close w b).out = .ok () := by
  simp [close, ho, hp, hpr]

theorem close_resolves_pending_read_witness :
    (close (wData [65]) bPending0).pendingReject = some .portClosed ∧
    (close (wData [65]) bPending0).out = .ok () :=
  close_resolves_pending_read (wData [65]) bPending0 0 rfl rfl rfl


/-- C4: on an open instance, a write issued while another is in flight throws
    the overlapping-write error and changes nothing; the deferred body of a
    completing write clears the in-flight marker and resolves; and a write
    issued with no write in flight is accepted, marking one in flight. -/
theorem overlapping_write_rejected (w : World) (b : MockBinding) (d : Bytes)
    (ho : b.isOpen = true) :
    (b.writeOperation = true →
      writeStart w b (.buf d) = ⟨w, b, [], .error .overlappingWrite⟩) ∧
    (∀ r bufNow, b.port = some r →
      (writeFinish w b bufNow).binding.writeOperation = false ∧
      (writeFinish w b bufNow).out = .ok ()) ∧
    (b.writeOperation = false →
      (writeStart w b (.buf d)).out = .ok () ∧
      (writeStart w b (.buf d)).binding = { b with writeOperation := true }) := by
  refine ⟨fun hw => ?_, fun r bufNow hp => ?_, fun hw => ?_⟩
  · simp [writeStart, ho, hw]
  · cases hrec : (w.getPort r).record <;> simp [writeFinish, ho, hp, hrec]
  · simp [writeStart, ho, hw]

theorem overlapping_write_rejected_witness :
    (writeStart (wData []) bOpen0 (.buf [1])).out = .ok () ∧
    (writeStart (wData []) bOpen0 (.buf [1])).binding
      = { bOpen0 with writeOperation := true } ∧
    writeStart (wData []) { bOpen0 with writeOperation := true } (.buf [2])
      = ⟨wData [], { bOpen0 with writeOperation := true }, [], .error .overlappingWrite⟩ ∧
    (writeFinish (wData []) { bOpen0 with writeOperation := true } [1]).binding.writeOperation
      = false ∧
    (writeFinish (wData []) { bOpen0 with writeOperation := true } [1]).out = .ok () := by
  have h1 := overlapping_write_rejected (wData []) bOpen0 [1] rfl
  have h2 := overlapping_write_rejected (wData []) { bOpen0 with writeOperation := true } [2] rfl
  exact ⟨(h1.2.2 rfl).1, (h1.2.2 rfl).2, h2.1 rfl,
    (h2.2.1 0 [1] rfl).1, (h2.2.1 0 [1] rfl).2⟩

theorem read_keeps_port_isOpen (w : World) (b : MockBinding) (buffer : Bytes)
    (offset len : Nat) :
    (MockBinding.read w b buffer offset len).binding.port = b.port ∧
    (MockBinding.read w b buffer offset len).binding.isOpen = b.isOpen := by
  cases ho : b.isOpen <;> cases hp : b.port <;>
    simp [MockBinding.read, ho, hp] <;> split <;> simp_all

theorem writeStart_keeps_port_isOpen (w : World) (b : MockBinding) (arg : WriteArg) :
    (writeStart w b arg).binding.port = b.port ∧
    (writeStart w b arg).binding.isOpen = b.isOpen := by
  cases arg <;> cases ho : b.isOpen <;>
    simp [writeStart, ho] <;> split <;> simp_all

theorem writeFinish_keeps_port_isOpen (w : World) (b : MockBinding) (bufNow : Bytes) :
    (writeFinish w b bufNow).binding.port = b.port ∧
    (writeFinish w b bufNow).binding.isOpen = b.isOpen := by
  cases ho : b.isOpen <;> cases hp : b.port <;>
    simp [writeFinish, ho, hp] <;> split <;> simp_all

theorem emitData_keeps_port_isOpen (w : World) (b : MockBinding) (data : Bytes) :
    (emitData w b data).binding.port = b.port ∧
    (emitData w b data).binding.isOpen = b.isOpen := by
  cases ho : b.isOpen <;> cases hp : b.port <;>
    simp [emitData, ho, hp] <;> split <;> simp_all

theorem flush_keeps_port_isOpen (w : World) (b : MockBinding) :
    (flush w b).binding.port = b.port ∧ (flush w b).binding.isOpen = b.isOpen := by
  cases ho : b.isOpen <;> cases hp : b.port <;> simp [flush, ho, hp]

theorem drain_keeps_port_isOpen (w : World) (b : MockBinding) :
    (drain w b).binding.port = b.port ∧ (drain w b).binding.isOpen = b.isOpen := by
  cases ho : b.isOpen <;> cases hp : b.port <;> simp [drain, ho, hp]

theorem runTask_keeps_port_isOpen (w : World) (b : MockBinding) (t : MockTask) :
    (runTask w b t).2.port = b.port ∧ (runTask w b t).2.isOpen = b.isOpen := by
  cases t <;> cases ho : b.isOpen <;> cases hp : b.port <;>
    simp [runTask, emitData, ho, hp] <;> split <;> simp_all

/-- C7 counterexample: a lock-conflict open failure leaves the two fields in
    disagreement: line 119 assigns the found record to `this.port` before the
    lock check throws, so after the failed open the device reference is set
    while isOpen is false — refuting the claim that after every operation,
    including failed opens, the two never disagree. -/
theorem open_failure_breaks_agreement :
    («open» wLocked MockBinding.init "/a" (some {})).out = .error .lockConflict ∧
    («open» wLocked MockBinding.init "/a" (some {})).binding.port = some 0 ∧
    («open» wLocked MockBinding.init "/a" (some {})).binding.isOpen = false :=
  ⟨rfl, rfl, rfl⟩

/-- C7 amended: the constructor establishes the agreement (device reference
    set exactly when isOpen is true), and every operation except open
    preserves it; a failed open can break it, as the counterexample shows. -/
theorem port_open_agreement_preserved (w : World) (b : MockBinding)
    (h : portOpenAgree b) :
    portOpenAgree MockBinding.init ∧
    portOpenAgree (close w b).binding ∧
    (∀ buffer offset len, portOpenAgree (MockBinding.read w b buffer offset len).binding) ∧
    (∀ arg, portOpenAgree (writeStart w b arg).binding) ∧
    (∀ bufNow, portOpenAgree (writeFinish w b bufNow).binding) ∧
    (∀ data, portOpenAgree (emitData w b data).binding) ∧
    portOpenAgree (flush w b).binding ∧
    portOpenAgree (drain w b).binding ∧
    (∀ t, portOpenAgree (runTask w b t).2) := by
  refine ⟨by simp [portOpenAgree, MockBinding.init], ?_, ?_, ?_, ?_, ?_, ?_, ?_, ?_⟩
  · cases ho : b.isOpen <;> cases hp : b.port <;> cases hpr : b.pendingRead <;>
      simp_all [close, portOpenAgree]
  · intro buffer offset len
    have hk := read_keeps_port_isOpen w b buffer offset len
    unfold portOpenAgree at h ⊢
    rw [hk.1, hk.2]; exact h
  · intro arg
    have hk := writeStart_keeps_port_isOpen w b arg
    unfold portOpenAgree at h ⊢
    rw [hk.1, hk.2]; exact h
  · intro bufNow
    have hk := writeFinish_keeps_port_isOpen w b bufNow
    unfold portOpenAgree at h ⊢
    rw [hk.1, hk.2]; exact h
  · intro data
    have hk := emitData_keeps_port_isOpen w b data
    unfold portOpenAgree at h ⊢
    rw [hk.1, hk.2]; exact h
  · have hk := flush_keeps_port_isOpen w b
    unfold portOpenAgree at h ⊢
    rw [hk.1, hk.2]; exact h
  · have hk := drain_keeps_port_isOpen w b
    unfold portOpenAgree at h ⊢
    rw [hk.1, hk.2]; exact h
  · intro t
    have hk := runTask_keeps_port_isOpen w b t
    unfold portOpenAgree at h ⊢
    rw [hk.1, hk.2]; exact h

theorem port_open_agreement_preserved_witness :
    portOpenAgree (close (wData [65]) bOpen0).binding ∧
    portOpenAgree (MockBinding.read (wData [65]) bOpen0 [0] 0 1).binding ∧
    portOpenAgree (writeStart (wData [65]) bOpen0 (.buf [1])).binding ∧
    portOpenAgree (writeFinish (wData [65]) bOpen0 [1]).binding ∧
    portOpenAgree (emitData (wData [65]) bOpen0 [2]).binding ∧
    portOpenAgree (flush (wData [65]) bOpen0).binding ∧
    portOpenAgree (drain (wData [65]) bOpen0).binding ∧
    portOpenAgree (runTask (wData [65]) bOpen0 (.emitEcho [3])).2 := by
  have h := port_open_agreement_preserved (wData [65]) bOpen0 (by decide)
  exact ⟨h.2.1, h.2.2.1 [0] 0 1, h.2.2.2.1 (.buf [1]), h.2.2.2.2.1 [1],
    h.2.2.2.2.2.1 [2], h.2.2.2.2.2.2.1, h.2.2.2.2.2.2.2.1, h.2.2.2.2.2.2.2.2 (.emitEcho [3])⟩

/-- C2 counterexample: open instance, receive buffer [65] (non-empty),
    requested length 1 (non-zero), but a caller buffer of length 0: read
    returns 0 bytes — not at least one — while the receive buffer still
    shrinks by one byte (line 183 drops `length`, not the copied count), so
    the shrink differs from the returned count. -/
theorem read_zero_count :
    ((wData [65]).getPort 0).data = [65] ∧
    (MockBinding.read (wData [65]) bOpen0 [] 0 1).out = .ok (.bytes 0) ∧
    ((MockBinding.read (wData [65]) bOpen0 [] 0 1).world.getPort 0).data = [] :=
  ⟨rfl, rfl, rfl⟩

/-- C2 amended: additionally assuming the caller buffer has room for length
    bytes at offset (offset + length within its capacity), read consumes
    min(length, available) bytes from the front in FIFO order, returns that
    count (at least one, at most length), shrinks the receive buffer by
    exactly that count leaving the rest buffered, and writes the consumed
    prefix into the caller buffer at offset. -/
theorem read_fifo (w : World) (b : MockBinding) (r : Nat) (buffer : Bytes)
    (offset len : Nat)
    (hr : r < w.heap.length) (ho : b.isOpen = true) (hp : b.port = some r)
    (hdata : (w.getPort r).data ≠ []) (hlen : len ≠ 0)
    (hcap : offset + len ≤ buffer.length) :
    (MockBinding.read w b buffer offset len).out
      = .ok (.bytes (min len (w.getPort r).data.length)) ∧
    1 ≤ min len (w.getPort r).data.length ∧
    min len (w.getPort r).data.length ≤ len ∧
    ((MockBinding.read w b buffer offset len).world.getPort r).data
      = (w.getPort r).data.drop (min len (w.getPort r).data.length) ∧
    (MockBinding.read w b buffer offset len).buffer
      = buffer.take offset
        ++ (w.getPort r).data.take (min len (w.getPort r).data.length)
        ++ buffer.drop (offset + min len (w.getPort r).data.length) ∧
    (MockBinding.read w b buffer offset len).binding = b := by
  have hd0 : 0 < (w.getPort r).data.length := List.length_pos.mpr hdata
  have hlen1 : 1 ≤ len := Nat.one_le_iff_ne_zero.mpr hlen
  have hmin : min ((w.getPort r).data.take len).length (buffer.length - offset)
      = min len (w.getPort r).data.length := by
    rw [List.length_take]; omega
  have hdrop : (w.getPort r).data.drop len
      = (w.getPort r).data.drop (min len (w.getPort r).data.length) := by
    rcases Nat.le_total len (w.getPort r).data.length with hc | hc
    · rw [Nat.min_eq_left hc]
    · rw [Nat.min_eq_right hc, List.drop_eq_nil_of_le hc,
        List.drop_eq_nil_of_le (Nat.le_refl _)]
  have htake : ((w.getPort r).data.take len).take (min len (w.getPort r).data.length)
      = (w.getPort r).data.take (min len (w.getPort r).data.length) := by
    rw [List.take_take]; congr 1; omega
  simp only [MockBinding.read, ho, hp, bufCopy]
  rw [if_neg (by omega)]
  refine ⟨by rw [hmin], by omega, by omega, ?_, ?_, rfl⟩
  · rw [getPort_updatePort_self w r _ hr]
    exact hdrop
  · rw [hmin, htake]

theorem read_fifo_witness :
    (MockBinding.read (wData [65, 66]) bOpen0 [0, 0] 0 1).out
      = .ok (.bytes (min 1 ((wData [65, 66]).getPort 0).data.length)) ∧
    1 ≤ min 1 ((wData [65, 66]).getPort 0).data.length ∧
    min 1 ((wData [65, 66]).getPort 0).data.length ≤ 1 ∧
    ((MockBinding.read (wData [65, 66]) bOpen0 [0, 0] 0 1).world.getPort 0).data
      = ((wData [65, 66]).getPort 0).data.drop
          (min 1 ((wData [65, 66]).getPort 0).data.length) ∧
    (MockBinding.read (wData [65, 66]) bOpen0 [0, 0] 0 1).buffer
      = [0, 0].take 0
        ++ ((wData [65, 66]).getPort 0).data.take
            (min 1 ((wData [65, 66]).getPort 0).data.length)
        ++ [0, 0].drop (0 + min 1 ((wData [65, 66]).getPort 0).data.length) ∧
    (MockBinding.read (wData [65, 66]) bOpen0 [0, 0] 0 1).binding = bOpen0 :=
  read_fifo (wData [65, 66]) bOpen0 0 [0, 0] 0 1 (by decide) rfl rfl
    (by decide) (by decide) (by decide)

/-- C6 counterexample: after a registry reset, an instance that was open keeps
    its direct reference to the (delisted) device record, so subsequent
    operations still succeed rather than failing as if the device vanished:
    flush resolves, and read returns a byte from the stale record. -/
theorem reset_orphan_ops_succeed :
    (flush (reset (wData [65])) bOpen0).out = .ok () ∧
    (MockBinding.read (reset (wData [65])) bOpen0 [0] 0 1).out = .ok (.bytes 1) :=
  ⟨rfl, rfl⟩

/-- C6 amended: reset only clears the path table; instance-level operations
    never consult it, so on an instance each operation behaves after reset
    exactly as it would have before the reset (same outcome, same binding and
    buffer effects, same record mutation), operating on the now-delisted
    record. -/
theorem reset_does_not_orphan (w : World) (b : MockBinding) :
    (∀ buffer offset len,
      MockBinding.read (reset w) b buffer offset len
        = ⟨reset (MockBinding.read w b buffer offset len).world,
           (MockBinding.read w b buffer offset len).binding,
           (MockBinding.read w b buffer offset len).buffer,
           (MockBinding.read w b buffer offset len).out⟩) ∧
    (∀ arg, writeStart (reset w) b arg
        = ⟨reset (writeStart w b arg).world, (writeStart w b arg).binding,
           (writeStart w b arg).tasks, (writeStart w b arg).out⟩) ∧
    (∀ bufNow, writeFinish (reset w) b bufNow
        = ⟨reset (writeFinish w b bufNow).world, (writeFinish w b bufNow).binding,
           (writeFinish w b bufNow).tasks, (writeFinish w b bufNow).out⟩) ∧
    (∀ data, emitData (reset w) b data
        = ⟨reset (emitData w b data).world, (emitData w b data).binding,
           (emitData w b data).tasks, (emitData w b data).out⟩) ∧
    (flush (reset w) b
        = ⟨reset (flush w b).world, (flush w b).binding,
           (flush w b).tasks, (flush w b).out⟩) ∧
    (drain (reset w) b
        = ⟨reset (drain w b).world, (drain w b).binding,
           (drain w b).tasks, (drain w b).out⟩) := by
  refine ⟨?_, ?_, ?_, ?_, ?_, ?_⟩
  · intro buffer offset len
    cases ho : b.isOpen <;> cases hp : b.port <;>
      simp only [MockBinding.read, ho, hp, getPort_reset] <;>
      first
        | rfl
        | (split <;> rfl)
  · intro arg
    cases arg <;> cases ho : b.isOpen <;> cases hw : b.writeOperation <;>
      simp [writeStart, ho, hw]
  · intro bufNow
    cases ho : b.isOpen <;> cases hp : b.port <;>
      simp only [writeFinish, ho, hp, getPort_reset] <;>
      first
        | rfl
        | (split <;> rfl)
  · intro data
    cases ho : b.isOpen <;> cases hp : b.port <;>
      simp only [emitData, ho, hp, getPort_reset] <;>
      first
        | rfl
        | (split <;> rfl)
  · cases ho : b.isOpen <;> cases hp : b.port <;>
      simp only [flush, ho, hp] <;> rfl
  · cases ho : b.isOpen <;> cases hp : b.port <;>
      simp only [drain, ho, hp] <;> rfl

/-- C8 counterexample: write is invoked with buffer contents [65] and
    accepted; the caller then mutates the buffer to [88] before the deferred
    body runs — the copy Buffer.from(buffer) at line 207 is taken only after
    the body resumes from its initial tick — and the stored lastWrite is
    [88], not the invocation-time [65], refuting snapshot-at-acceptance. -/
theorem write_late_snapshot :
    (writeStart (wData []) bOpen0 (.buf [65])).out = .ok () ∧
    (writeFinish (wData [])
        (writeStart (wData []) bOpen0 (.buf [65])).binding [88]).binding.lastWrite
      = some [88] ∧
    (writeFinish (wData [])
        (writeStart (wData []) bOpen0 (.buf [65])).binding [88]).binding.lastWrite
      ≠ some [65] := by
  refine ⟨rfl, rfl, by decide⟩

/-- C8 amended: the snapshot is taken when the deferred write body runs, not
    at acceptance: the body stores exactly the bytes the caller buffer holds
    at that moment as lastWrite, appends exactly those bytes to the recording
    when the record is recording, and the scheduled echo task carries that
    same value — so no mutation after the body has run can affect any of the
    three, while a mutation between invocation and the body is picked up. -/
theorem write_snapshot_at_body (w : World) (b : MockBinding) (r : Nat) (bufNow : Bytes)
    (ho : b.isOpen = true) (hp : b.port = some r) :
    (writeFinish w b bufNow).binding.lastWrite = some bufNow ∧
    (writeFinish w b bufNow).binding.recording
      = (if (w.getPort r).record then b.recording ++ bufNow else b.recording) ∧
    (writeFinish w b bufNow).tasks
      = (if (w.getPort r).echo then [MockTask.emitEcho bufNow] else []) ∧
    (writeFinish w b bufNow).out = .ok () := by
  cases hrec : (w.getPort r).record <;> cases hecho : (w.getPort r).echo <;>
    simp [writeFinish, ho, hp, hrec, hecho]

theorem write_snapshot_at_body_witness :
    (writeFinish (wData []) bOpen0 [88]).binding.lastWrite = some [88] ∧
    (writeFinish (wData []) bOpen0 [88]).binding.recording
      = (if ((wData []).getPort 0).record then bOpen0.recording ++ [88]
         else bOpen0.recording) ∧
    (writeFinish (wData []) bOpen0 [88]).tasks
      = (if ((wData []).getPort 0).echo then [MockTask.emitEcho [88]] else []) ∧
    (writeFinish (wData []) bOpen0 [88]).out = .ok () :=
  write_snapshot_at_body (wData []) bOpen0 0 [88] rfl rfl

theorem runTasks_map_emitEcho (r : Nat) (ds : List Bytes) :
    ∀ (w : World) (b : MockBinding), r < w.heap.length →
      b.isOpen = true → b.port = some r → b.pendingRead = false →
      ((runTasks w b (ds.map MockTask.emitEcho)).1.getPort r).data
        = (w.getPort r).data ++ ds.flatten := by
  induction ds with
  | nil =>
    intro w b _ _ _ _
    simp [runTasks]
  | cons d ds ih =>
    intro w b hr ho hp hpr
    have hstep : runTask w b (.emitEcho d)
        = (w.updatePort r (fun p => { p with data := p.data ++ d }), b) := by
      simp [runTask, emitData, ho, hp, hpr]
    simp only [List.map_cons, runTasks, hstep]
    rw [ih (w.updatePort r (fun p => { p with data := p.data ++ d })) b
        (by rw [heap_length_updatePort]; exact hr) ho hp hpr]
    rw [getPort_updatePort_self w r _ hr]
    simp

/-- C5: whenever open succeeds on a device with echo enabled it schedules
    exactly one deferred ready-data emission; running that emission appends
    readyData to the receive buffer when the instance is still open, and is
    suppressed (a no-op) when the instance has closed by then; running the
    deferred echoes of completed writes in their FIFO scheduling order
    appends each completed write's bytes to the receive buffer in write
    order; and each completed write on an echoing device schedules exactly
    one echo carrying its bytes. -/
theorem echo_schedule (w : World) (b : MockBinding) (path : String)
    (opts : OpenOpt) (r : Nat)
    (hpath : ¬ path = "") (hlook : w.ports.lookup path = some r)
    (hlock : lockHeld (w.getPort r).openOpt = false)
    (ho : b.isOpen = true) (hecho : (w.getPort r).echo = true) :
    («open» w b path (some opts)).out = .ok () ∧
    («open» w b path (some opts)).tasks = [MockTask.emitReady r] ∧
    (∀ w2 b2, r < w2.heap.length → b2.isOpen = true → b2.port = some r →
      b2.pendingRead = false →
      ((runTask w2 b2 (.emitReady r)).1.getPort r).data
        = (w2.getPort r).data ++ (w2.getPort r).readyData) ∧
    (∀ w2 b2, b2.isOpen = false → runTask w2 b2 (.emitReady r) = (w2, b2)) ∧
    (∀ w2 b2 (ds : List Bytes), r < w2.heap.length → b2.isOpen = true →
      b2.port = some r → b2.pendingRead = false →
      ((runTasks w2 b2 (ds.map MockTask.emitEcho)).1.getPort r).data
        = (w2.getPort r).data ++ ds.flatten) ∧
    (∀ w2 b2 bufNow, b2.isOpen = true → b2.port = some r →
      (w2.getPort r).echo = true →
      (writeFinish w2 b2 bufNow).tasks = [MockTask.emitEcho bufNow]) := by
  refine ⟨?_, ?_, ?_, ?_, ?_, ?_⟩
  · simp [«open», hlook, hpath, ho, hecho, hlock]
  · simp [«open», hlook, hpath, ho, hecho, hlock]
  · intro w2 b2 hr2 ho2 hp2 hpr2
    simp only [runTask, ho2, if_true]
    simp only [emitData, ho2, hp2, hpr2]
    simp only [Bool.false_eq_true, if_false]
    rw [getPort_updatePort_self w2 r _ hr2]
  · intro w2 b2 hc
    simp [runTask, hc]
  · intro w2 b2 ds hr2 ho2 hp2 hpr2
    exact runTasks_map_emitEcho r ds w2 b2 hr2 ho2 hp2 hpr2
  · intro w2 b2 bufNow ho2 hp2 hecho2
    cases hrec : (w2.getPort r).record <;>
      simp [writeFinish, ho2, hp2, hecho2, hrec]

theorem echo_schedule_witness :
    («open» wEcho bOpen0 "/e" (some {})).out = .ok () ∧
    («open» wEcho bOpen0 "/e" (some {})).tasks = [MockTask.emitReady 0] ∧
    ((runTask wEcho bOpen0 (.emitReady 0)).1.getPort 0).data
      = (wEcho.getPort 0).data ++ (wEcho.getPort 0).readyData ∧
    runTask wEcho { bOpen0 with isOpen := false } (.emitReady 0)
      = (wEcho, { bOpen0 with isOpen := false }) ∧
    ((runTasks wEcho bOpen0 (List.map MockTask.emitEcho [[1], [2]])).1.getPort 0).data
      = (wEcho.getPort 0).data ++ [[1], [2]].flatten ∧
    (writeFinish wEcho bOpen0 [7]).tasks = [MockTask.emitEcho [7]] := by
  have h := echo_schedule wEcho bOpen0 "/e" {} 0 (by decide) (by decide) (by decide) rfl rfl
  exact ⟨h.1, h.2.1, h.2.2.1 wEcho bOpen0 (by decide) rfl rfl rfl,
    h.2.2.2.1 wEcho { bOpen0 with isOpen := false } rfl,
    h.2.2.2.2.1 wEcho bOpen0 [[1], [2]] (by decide) rfl rfl rfl,
    h.2.2.2.2.2 wEcho bOpen0 [7] rfl rfl rfl⟩

theorem serialNumber_applyRegOp_le (w : World) (op : RegOp) :
    w.serialNumber ≤ (applyRegOp w op).serialNumber := by
  cases op with
  | create p o =>
    show w.serialNumber ≤ w.serialNumber + 1
    omega
  | resetR => exact Nat.le_refl _

theorem mem_serialsAssigned_gt (l : List RegOp) :
    ∀ (w : World) (s : Nat), s ∈ serialsAssigned w l → w.serialNumber < s := by
  induction l with
  | nil =>
    intro w s h
    simp [serialsAssigned] at h
  | cons op l ih =>
    intro w s h
    cases op with
    | create p o =>
      simp only [serialsAssigned, List.cons_append, List.nil_append,
        List.mem_cons] at h
      rcases h with h | h
      · omega
      · have h2 := ih (applyRegOp w (.create p o)) s h
        have h3 : (applyRegOp w (.create p o)).serialNumber = w.serialNumber + 1 := rfl
        omega
    | resetR =>
      simp only [serialsAssigned, List.nil_append] at h
      have h2 := ih (applyRegOp w .resetR) s h
      have h3 : (applyRegOp w .resetR).serialNumber = w.serialNumber := rfl
      omega

theorem serialsAssigned_pairwise_lt (l : List RegOp) :
    ∀ w : World, List.Pairwise (· < ·) (serialsAssigned w l) := by
  induction l with
  | nil =>
    intro w
    simp [serialsAssigned]
  | cons op l ih =>
    intro w
    cases op with
    | create p o =>
      simp only [serialsAssigned, List.cons_append, List.nil_append]
      refine List.Pairwise.cons ?_ (ih _)
      intro s hs
      have h2 := mem_serialsAssigned_gt l (applyRegOp w (.create p o)) s hs
      have h3 : (applyRegOp w (.create p o)).serialNumber = w.serialNumber + 1 := rfl
      omega
    | resetR =>
      simp only [serialsAssigned, List.nil_append]
      exact ih _

/-- C9: createPort assigns the bumped counter as the new record's serial
    number and registers the record under the path; reset leaves the counter
    untouched; and over any history of createPort and reset calls the
    assigned serial numbers are strictly increasing in call order — hence
    each is strictly greater than all previously assigned ones and unique,
    across resets and across re-creation of the same path. -/
theorem serials_strictly_increasing :
    (∀ w path options,
      (createPort w path options).serialNumber = w.serialNumber + 1 ∧
      (createPort w path options).ports.lookup path = some w.heap.length ∧
      ((createPort w path options).getPort w.heap.length).serialNumber
        = w.serialNumber + 1) ∧
    (∀ w, (reset w).serialNumber = w.serialNumber) ∧
    (∀ w l, List.Pairwise (· < ·) (serialsAssigned w l)) := by
  refine ⟨fun w path options => ⟨rfl, ?_, ?_⟩, fun w => rfl,
    fun w l => serialsAssigned_pairwise_lt l w⟩
  · simp [createPort, setAssoc, List.lookup]
  · simp [createPort, World.getPort, List.getD, List.getElem?_concat_length]
